import Mathlib

/-!
Shallow embedding of the SmartLoanAgent loan-underwriting pipeline
(server agents, storage-level state transitions and the override route),
with theorems checking the specification's claims about it.

Financial inputs are exact decimals in the source's database schema, so
they are modelled as rationals.  The one place where JavaScript number
semantics matters is the debt-to-income quotient, whose divisor
(`income / 12`) can be zero: JavaScript yields `Infinity`, `-Infinity`
or `NaN` there instead of raising, so the quotient is modelled by a
dedicated type `JsNum` with JavaScript's comparison behaviour.
-/

namespace SmartLoan

/-- A JavaScript number as it can arise from dividing two finite decimals:
either a finite rational, a signed infinity, or `NaN`. -/
inductive JsNum where
  | fin (q : ℚ)
  | posInf
  | negInf
  | nan
deriving DecidableEq, Repr

/-- JavaScript division of two finite numbers: division by zero yields a
signed infinity (`NaN` for `0/0`); otherwise the exact quotient. -/
def jsDiv (a b : ℚ) : JsNum :=
  if b = 0 then
    if a = 0 then .nan else if 0 < a then .posInf else .negInf
  else .fin (a / b)

/-- JavaScript `x < c` for a possibly non-finite `x` and a finite
threshold `c`: comparisons with `NaN` are false. -/
def JsNum.ltQ : JsNum → ℚ → Bool
  | .fin q, c => decide (q < c)
  | .posInf, _ => false
  | .negInf, _ => true
  | .nan, _ => false

/-- JavaScript `x > c` for a possibly non-finite `x` and a finite
threshold `c`: comparisons with `NaN` are false. -/
def JsNum.gtQ : JsNum → ℚ → Bool
  | .fin q, c => decide (c < q)
  | .posInf, _ => true
  | .negInf, _ => false
  | .nan, _ => false

/-- JavaScript `Math.round`: round half toward positive infinity. -/
def jsRound (q : ℚ) : ℤ := ⌊q + 1 / 2⌋

/-- `parseFloat(x.toFixed(3))` on a finite value: round to 3 decimal
places, halves toward positive infinity (ECMAScript `toFixed` picks the
larger candidate on a tie). -/
def roundTo3 (q : ℚ) : ℚ := (⌊q * 1000 + 1 / 2⌋ : ℚ) / 1000

/-- `parseFloat(x.toFixed(3))` on a general JavaScript number:
`Infinity.toFixed(3)` is `"Infinity"` and `NaN.toFixed(3)` is `"NaN"`,
both of which `parseFloat` maps back to themselves. -/
def jsToFixed3 : JsNum → JsNum
  | .fin q => .fin (roundTo3 q)
  | x => x

/-- The financial data the document parser extracts from an application
(`documentParserAgent`'s `output.extractedData`). -/
structure ExtractedData where
  income : ℚ
  monthlyDebt : ℚ
  loanAmount : ℚ
  employmentDuration : String
  employmentStatus : String
deriving DecidableEq, Repr

/-- Income-tier bonus of `creditScoringAgent`. -/
def incomeBonus (income : ℚ) : ℚ :=
  if income > 100000 then 100
  else if income > 75000 then 70
  else if income > 50000 then 40
  else 0

/-- Employment-duration bonus of `creditScoringAgent` (`durationMap`,
defaulting to 0 for an unknown bucket). -/
def durationBonus (d : String) : ℚ :=
  if d = "0-1y" then 0
  else if d = "1-2y" then 20
  else if d = "2-3y" then 40
  else if d = "3-5y" then 60
  else if d = "5+y" then 80
  else 0

/-- Employment-status bonus of `creditScoringAgent`. -/
def statusBonus (s : String) : ℚ :=
  if s = "full_time" then 30
  else if s = "self_employed" then 15
  else 0

/-- Total monthly debt used in the DTI: existing monthly debt plus the
estimated loan payment `loanAmount * 0.008`. -/
def totalMonthlyDebt (e : ExtractedData) : ℚ :=
  e.monthlyDebt + e.loanAmount * (8 / 1000)

/-- The raw DTI quotient `totalMonthlyDebt / (income / 12)` exactly as
`creditScoringAgent` computes it, with JavaScript division semantics. -/
def rawDti (e : ExtractedData) : JsNum :=
  jsDiv (totalMonthlyDebt e) (e.income / 12)

/-- The DTI adjustment of `creditScoringAgent`:
`dti < 0.2 → +50`, `dti < 0.35 → +20`, `dti > 0.5 → −50`, else 0. -/
def dtiAdjust (d : JsNum) : ℚ :=
  if d.ltQ (2 / 10) then 50
  else if d.ltQ (35 / 100) then 20
  else if d.gtQ (5 / 10) then -50
  else 0

/-- The un-clamped score accumulated by `creditScoringAgent`. -/
def baseScore (e : ExtractedData) : ℚ :=
  650 + incomeBonus e.income + durationBonus e.employmentDuration
      + statusBonus e.employmentStatus + dtiAdjust (rawDti e)

/-- The final credit score:
`Math.min(850, Math.max(300, Math.round(baseScore)))`. -/
def creditScore (e : ExtractedData) : ℤ :=
  min 850 (max 300 (jsRound (baseScore e)))

/-- The credit scorer's output record (`creditScoringAgent`'s `output`):
the clamped score and the DTI rounded via `parseFloat(dtiRatio.toFixed(3))`. -/
structure CreditOutput where
  creditScore : ℤ
  dtiRatio : JsNum
deriving DecidableEq, Repr

/-- `creditScoringAgent`'s output for given extracted data. -/
def creditScoringOutput (e : ExtractedData) : CreditOutput :=
  { creditScore := creditScore e, dtiRatio := jsToFixed3 (rawDti e) }

/-- Risk tiers of `riskAssessmentAgent`. -/
inductive RiskTier where
  | low
  | medium
  | high
deriving DecidableEq, Repr

/-- Provisional decisions of `riskAssessmentAgent`. -/
inductive Decision where
  | approved
  | rejected
  | escalated
deriving DecidableEq, Repr

/-- The status string a decision writes onto the application. -/
def Decision.statusStr : Decision → String
  | .approved => "approved"
  | .rejected => "rejected"
  | .escalated => "escalated"

/-- `riskAssessmentAgent`'s three-tier classification, first match wins:
score ≥ 750 and DTI < 0.35 → low/approved; score ≤ 550 or DTI > 0.5 →
high/rejected; otherwise medium/escalated. -/
def riskAssess (score : ℤ) (dti : JsNum) : RiskTier × Decision :=
  if 750 ≤ score ∧ dti.ltQ (35 / 100) then (.low, .approved)
  else if score ≤ 550 ∨ dti.gtQ (5 / 10) then (.high, .rejected)
  else (.medium, .escalated)

/-- The tier/decision the pipeline's risk assessor produces for given
extracted data: it classifies the credit scorer's output record. -/
def assessedOf (e : ExtractedData) : RiskTier × Decision :=
  riskAssess (creditScoringOutput e).creditScore (creditScoringOutput e).dtiRatio

/-! ## Persistent state: application, agent states, audit log

Timestamps are opaque (`new Date()`); only the presence of the override
timestamp matters to the claims, so it is kept as a flag.  Personal and
employment text fields other than the two the scorer reads are dropped:
they never influence any claimed behaviour. -/

/-- A row of the `loan_applications` table, restricted to the fields the
pipeline, the override route and the claims touch. -/
structure Application where
  annualIncome : ℚ
  monthlyDebt : ℚ
  loanAmount : ℚ
  employmentDuration : String
  employmentStatus : String
  creditScore : Option ℤ := none
  status : String
  riskTier : Option RiskTier := none
  finalDecision : Option String := none
  aiExplanation : Option String := none
  overriddenBy : Option String := none
  overrideReason : Option String := none
  overriddenAt : Bool := false
deriving DecidableEq, Repr

/-- The structured payloads the four agents store as their `output`. -/
inductive Payload where
  | parsed (d : ExtractedData)
  | scored (c : CreditOutput)
  | assessed (r : RiskTier × Decision)
  | explained (text : String) (decision : Decision)
deriving DecidableEq, Repr

/-- A row of the `agent_states` table.  The row is shown in its final
state for the run: each agent creates it as `pending`, moves it to
`processing`, and on success moves it to `completed` while storing its
output; the `input` column is always populated at creation and is not
read by any claim, so it is omitted. -/
structure AgentStateRec where
  agentName : String
  agentStatus : String
  output : Option Payload := none
deriving DecidableEq, Repr

/-- The `details` payloads written to `audit_logs` by the embedded code. -/
inductive AuditDetails where
  | submission
  | agentOutput (p : Payload)
  | decisionInfo (decision : String) (tier : RiskTier) (score : ℤ)
  | overrideInfo (previousDecision : Option String) (newDecision : String)
      (reason : String)
deriving DecidableEq, Repr

/-- A row of the `audit_logs` table. -/
structure AuditRec where
  action : String
  agentName : Option String := none
  details : Option AuditDetails := none
deriving DecidableEq, Repr

/-- The persisted state relevant to one application: its row, its agent
state rows in creation order, and its audit log rows in creation order. -/
structure SysState where
  app : Application
  agentStates : List AgentStateRec
  auditLog : List AuditRec
deriving DecidableEq, Repr

/-! ## The pipeline orchestrator (`processLoanApplication`)

Each stage may throw (the genuinely fallible operation is the external
text-generation call, but the orchestrator's `catch` covers all four);
a run is therefore parameterised by an optional failing stage, the
failure occurring in the stage's computation — after its agent state
row exists and has been moved to `processing`, before it is completed. -/

/-- The four pipeline stages, in order. -/
inductive Stage where
  | documentParser
  | creditScorer
  | riskAssessor
  | decisionExplainer
deriving DecidableEq, Repr

/-- The agent name string of a stage. -/
def Stage.agentName : Stage → String
  | .documentParser => "document_parser"
  | .creditScorer => "credit_scorer"
  | .riskAssessor => "risk_assessor"
  | .decisionExplainer => "decision_explainer"

/-- `documentParserAgent`'s extraction: `parseFloat` of the exact
decimal columns, passed through with the employment fields. -/
def mkExtracted (a : Application) : ExtractedData :=
  { income := a.annualIncome, monthlyDebt := a.monthlyDebt,
    loanAmount := a.loanAmount, employmentDuration := a.employmentDuration,
    employmentStatus := a.employmentStatus }

/-- Run one stage against the state: create its agent state row, mark
it `processing`, and — unless this is the injected failing stage — store
its output, mark it `completed` and append its `agent_completed` audit
row.  On failure the row stays `processing` with no output and no audit
row, matching the absence of any failure handling inside the agents. -/
def stageRun (s : SysState) (stage : Stage) (out : Payload) (ok : Bool) :
    SysState × Bool :=
  if ok then
    ({ s with
        agentStates := s.agentStates ++
          [{ agentName := stage.agentName, agentStatus := "completed",
             output := some out }],
        auditLog := s.auditLog ++
          [{ action := "agent_completed", agentName := some stage.agentName,
             details := some (.agentOutput out) }] },
     true)
  else
    ({ s with
        agentStates := s.agentStates ++
          [{ agentName := stage.agentName, agentStatus := "processing" }] },
     false)

/-- The application update the orchestrator's `catch` block performs:
force rejection with the fixed technical-failure explanation. -/
def failedUpdate (a : Application) : Application :=
  { a with status := "rejected", finalDecision := some "rejected",
           aiExplanation :=
             some "Application processing failed due to technical error." }

/-- The explanation text produced by the decision explainer:
`response.choices[0].message.content || "Decision explanation unavailable."`,
where `genText` is what the external text-generation service returned. -/
def explanationText (genText : Option String) : String :=
  genText.getD "Decision explanation unavailable."

/-- `processLoanApplication`: run the four agents in order, then write
the decision onto the application and append the `decision_made` audit
row; if the stage `failAt` throws, the `catch` block forces the
application to rejected and nothing further runs. -/
def runPipeline (a : Application) (genText : Option String)
    (failAt : Option Stage) : SysState :=
  let s0 : SysState := { app := a, agentStates := [], auditLog := [] }
  let e := mkExtracted a
  let (s1, ok1) := stageRun s0 .documentParser (.parsed e)
    (!(failAt == some .documentParser))
  if ok1 then
    let c := creditScoringOutput e
    let (s2, ok2) := stageRun s1 .creditScorer (.scored c)
      (!(failAt == some .creditScorer))
    if ok2 then
      let r := riskAssess c.creditScore c.dtiRatio
      let (s3, ok3) := stageRun s2 .riskAssessor (.assessed r)
        (!(failAt == some .riskAssessor))
      if ok3 then
        let expl := explanationText genText
        let (s4, ok4) := stageRun s3 .decisionExplainer
          (.explained expl r.2) (!(failAt == some .decisionExplainer))
        if ok4 then
          { s4 with
            app := { s4.app with
              status := r.2.statusStr, riskTier := some r.1,
              creditScore := some c.creditScore,
              finalDecision := some r.2.statusStr,
              aiExplanation := some expl },
            auditLog := s4.auditLog ++
              [{ action := "decision_made",
                 details := some (.decisionInfo r.2.statusStr r.1 c.creditScore) }] }
        else { s4 with app := failedUpdate s4.app }
      else { s3 with app := failedUpdate s3.app }
    else { s2 with app := failedUpdate s2.app }
  else { s1 with app := failedUpdate s1.app }

/-! ## The override route (`POST /api/applications/:id/override`) -/

/-- The request body of an override. -/
structure OverrideReq where
  overrideReason : String
  newDecision : String
deriving DecidableEq, Repr

/-- `overrideDecisionSchema`: reason at least 10 characters, decision in
the enum `{approved, rejected}`.  A body failing this throws in `parse`
and the route's `catch` answers 400 before any storage call. -/
def overrideValid (r : OverrideReq) : Bool :=
  decide (10 ≤ r.overrideReason.length) &&
    (r.newDecision == "approved" || r.newDecision == "rejected")

/-- The override route: when the body validates, update the application
(status, finalDecision, override stamps) and append one
`override_applied` audit row recording the previous and new decision;
otherwise return an error and leave the state untouched.  The returned
flag is whether the override was applied. -/
def overrideRoute (s : SysState) (officerId : String) (r : OverrideReq) :
    SysState × Bool :=
  if overrideValid r then
    ({ s with
        app := { s.app with
          status := r.newDecision, finalDecision := some r.newDecision,
          overriddenBy := some officerId,
          overrideReason := some r.overrideReason, overriddenAt := true },
        auditLog := s.auditLog ++
          [{ action := "override_applied",
             details := some (.overrideInfo s.app.finalDecision r.newDecision
               r.overrideReason) }] },
     true)
  else (s, false)

/-! ## Reachable application states

Submission (`createLoanApplication`) inserts the row with
`status = "processing"` and every decision field unset; from there the
row is only rewritten by a pipeline run's completion or failure update,
or by a validated override. -/

/-- The application row as submission creates it. -/
def submittedApp (income debt loan : ℚ) (dur stat : String) : Application :=
  { annualIncome := income, monthlyDebt := debt, loanAmount := loan,
    employmentDuration := dur, employmentStatus := stat,
    status := "processing" }

/-- Application rows reachable through the system's operations. -/
inductive ReachableApp : Application → Prop where
  | submitted (income debt loan : ℚ) (dur stat : String) :
      ReachableApp (submittedApp income debt loan dur stat)
  | pipelineRun (a : Application) (genText : Option String)
      (failAt : Option Stage) : ReachableApp a →
      ReachableApp (runPipeline a genText failAt).app
  | overridden (a : Application) (ast : List AgentStateRec)
      (log : List AuditRec) (officerId : String) (r : OverrideReq) :
      ReachableApp a →
      ReachableApp (overrideRoute ⟨a, ast, log⟩ officerId r).1.app

/-! ## The loan simulation (`POST /api/simulate-loan`)

The route re-computes the scoring formula with its own copy of the
code; the definitions below are translated from that copy, not shared
with the pipeline's, so that the claimed equivalence is a theorem about
two independent translations. -/

/-- The simulation's raw DTI quotient
`(debt + loanAmount * 0.008) / (income / 12)`. -/
def simRawDti (income debt loan : ℚ) : JsNum :=
  jsDiv (debt + loan * (8 / 1000)) (income / 12)

/-- The simulation's un-clamped credit score, accumulated exactly as the
route writes it. -/
def simScoreRaw (income debt loan : ℚ) (dur stat : String) : ℚ :=
  650
  + (if income > 100000 then 100
     else if income > 75000 then 70
     else if income > 50000 then 40
     else 0)
  + (if dur = "0-1y" then 0
     else if dur = "1-2y" then 20
     else if dur = "2-3y" then 40
     else if dur = "3-5y" then 60
     else if dur = "5+y" then 80
     else 0)
  + (if stat = "full_time" then 30
     else if stat = "self_employed" then 15
     else 0)
  + (if (simRawDti income debt loan).ltQ (2 / 10) then 50
     else if (simRawDti income debt loan).ltQ (35 / 100) then 20
     else if (simRawDti income debt loan).gtQ (5 / 10) then -50
     else 0)

/-- The simulation's final credit score:
`Math.min(850, Math.max(300, Math.round(creditScore)))`. -/
def simCreditScore (income debt loan : ℚ) (dur stat : String) : ℤ :=
  min 850 (max 300 (jsRound (simScoreRaw income debt loan dur stat)))

/-- The simulation's risk tier: the same thresholds as the pipeline's
risk assessor, but compared against the raw (un-rounded) DTI quotient. -/
def simRiskTier (income debt loan : ℚ) (dur stat : String) : RiskTier :=
  if 750 ≤ simCreditScore income debt loan dur stat ∧
      (simRawDti income debt loan).ltQ (35 / 100) then .low
  else if simCreditScore income debt loan dur stat ≤ 550 ∨
      (simRawDti income debt loan).gtQ (5 / 10) then .high
  else .medium

/-- The `dtiRatio` field of the simulation's response:
`parseFloat(dtiRatio.toFixed(3))`. -/
def simDtiResult (income debt loan : ℚ) : JsNum :=
  jsToFixed3 (simRawDti income debt loan)

/-! ## Helper lemmas -/

/-- The risk classifier on a finite DTI, with the conditions as
propositions. -/
theorem riskAssess_fin (s : ℤ) (d : ℚ) :
    riskAssess s (.fin d) =
      if 750 ≤ s ∧ d < 35 / 100 then (.low, .approved)
      else if s ≤ 550 ∨ 1 / 2 < d then (.high, .rejected)
      else (.medium, .escalated) := by
  simp only [riskAssess, JsNum.ltQ, JsNum.gtQ, decide_eq_true_eq]
  norm_num

/-- The credit score is clamped into the policy interval. -/
theorem creditScore_mem_range (e : ExtractedData) :
    300 ≤ creditScore e ∧ creditScore e ≤ 850 :=
  ⟨le_min (by norm_num) (le_max_left _ _), min_le_left _ _⟩

/-- No decision writes the status `"processing"`. -/
theorem statusStr_ne_processing (d : Decision) : d.statusStr ≠ "processing" := by
  cases d <;> simp [Decision.statusStr]

/-- A validated override body, as propositions. -/
theorem overrideValid_iff (r : OverrideReq) :
    overrideValid r = true ↔
      10 ≤ r.overrideReason.length ∧
        (r.newDecision = "approved" ∨ r.newDecision = "rejected") := by
  simp [overrideValid]

/-- The application row a successful run writes. -/
theorem runPipeline_none_app (a : Application) (genText : Option String) :
    (runPipeline a genText none).app =
      { a with
          status := (assessedOf (mkExtracted a)).2.statusStr,
          riskTier := some (assessedOf (mkExtracted a)).1,
          creditScore := some (creditScoringOutput (mkExtracted a)).creditScore,
          finalDecision := some (assessedOf (mkExtracted a)).2.statusStr,
          aiExplanation := some (explanationText genText) } := rfl

/-- The application row a failed run writes: whatever stage threw, the
`catch` block's forced rejection of the unmodified row. -/
theorem runPipeline_fail_app (a : Application) (genText : Option String)
    (k : Stage) : (runPipeline a genText (some k)).app = failedUpdate a := by
  cases k <;> rfl

/-! ## The claims -/

/-- C1: for every credit score `s` and DTI ratio `d`, the risk assessor
returns low/approved exactly when `s ≥ 750` and `d < 0.35`; failing
that, high/rejected exactly when `s ≤ 550` or `d > 0.5`; failing both,
medium/escalated — and `d = 0.35` never yields the low tier, while
`d = 0.5` never yields the high tier by DTI alone. -/
theorem c1_risk_classifier (s : ℤ) (d : ℚ) :
    (riskAssess s (.fin d) = (.low, .approved) ↔ 750 ≤ s ∧ d < 35 / 100) ∧
    (¬(750 ≤ s ∧ d < 35 / 100) →
      (riskAssess s (.fin d) = (.high, .rejected) ↔ s ≤ 550 ∨ 1 / 2 < d)) ∧
    (¬(750 ≤ s ∧ d < 35 / 100) → ¬(s ≤ 550 ∨ 1 / 2 < d) →
      riskAssess s (.fin d) = (.medium, .escalated)) ∧
    riskAssess s (.fin (35 / 100)) ≠ (.low, .approved) ∧
    (550 < s → riskAssess s (.fin (1 / 2)) ≠ (.high, .rejected)) := by
  refine ⟨?_, fun h1 => ?_, fun h1 h2 => ?_, ?_, fun h550 => ?_⟩ <;>
    rw [riskAssess_fin] <;> split_ifs <;> simp_all <;> omega

/-- C3: the credit score produced by the scoring stage is an integer in
the closed interval [300, 850] for every input, extreme and degenerate
values included. -/
theorem c3_score_range (e : ExtractedData) :
    300 ≤ creditScore e ∧ creditScore e ≤ 850 :=
  creditScore_mem_range e

/-- C4 counterexample: with annual income 0, monthly debt 0 and loan
amount 0 the division is still performed with JavaScript semantics and
yields `NaN`, so the DTI is not treated as maximal: no DTI adjustment
applies (the claimed DTI > 0.5 penalty of −50 does not), and the score
is 650 rather than the 600 the claimed maximal-DTI treatment forces. -/
theorem c4_counterexample :
    rawDti ⟨0, 0, 0, "0-1y", "unemployed"⟩ = JsNum.nan ∧
    dtiAdjust (rawDti ⟨0, 0, 0, "0-1y", "unemployed"⟩) = 0 ∧
    dtiAdjust (rawDti ⟨0, 0, 0, "0-1y", "unemployed"⟩) ≠ -50 ∧
    creditScore ⟨0, 0, 0, "0-1y", "unemployed"⟩ = 650 := by
  have hs : statusBonus "unemployed" = 0 := by simp [statusBonus]
  have hd : durationBonus "0-1y" = 0 := by simp [durationBonus]
  norm_num [rawDti, jsDiv, totalMonthlyDebt, dtiAdjust, JsNum.ltQ, JsNum.gtQ,
    creditScore, baseScore, incomeBonus, hs, hd, jsRound]

/-- C4 amended: the scoring stage performs the DTI division
unconditionally with JavaScript semantics, so it never raises: with zero
annual income the quotient is `+∞` when the total monthly debt is
positive (and only then does the DTI > 0.5 penalty apply) and `NaN` when
it is zero (no adjustment applies); with negative annual income and
non-negative total monthly debt the quotient is non-positive and the
DTI < 0.2 bonus applies; in every case a clamped score in [300, 850] is
produced. -/
theorem c4_amended (e : ExtractedData) :
    (e.income = 0 → 0 < totalMonthlyDebt e →
      rawDti e = JsNum.posInf ∧ dtiAdjust (rawDti e) = -50) ∧
    (e.income = 0 → totalMonthlyDebt e = 0 →
      rawDti e = JsNum.nan ∧ dtiAdjust (rawDti e) = 0) ∧
    (e.income < 0 → 0 ≤ totalMonthlyDebt e →
      dtiAdjust (rawDti e) = 50) ∧
    (300 ≤ creditScore e ∧ creditScore e ≤ 850) := by
  refine ⟨fun h0 hpos => ?_, fun h0 hz => ?_, fun hneg hd => ?_,
    creditScore_mem_range e⟩
  · have : rawDti e = JsNum.posInf := by
      simp [rawDti, jsDiv, h0, hpos, hpos.ne']
    simp [this, dtiAdjust, JsNum.ltQ, JsNum.gtQ]
  · have : rawDti e = JsNum.nan := by simp [rawDti, jsDiv, h0, hz]
    simp [this, dtiAdjust, JsNum.ltQ, JsNum.gtQ]
  · have hb : e.income / 12 < 0 := by linarith
    have : rawDti e = JsNum.fin (totalMonthlyDebt e / (e.income / 12)) := by
      simp [rawDti, jsDiv, hb.ne]
    have hq : totalMonthlyDebt e / (e.income / 12) ≤ 0 :=
      div_nonpos_of_nonneg_of_nonpos hd hb.le
    have hlt : totalMonthlyDebt e / (e.income / 12) < 2 / 10 := by linarith
    simp [this, dtiAdjust, JsNum.ltQ, hlt]

/-- C2 counterexample: with the decision explainer throwing (the
text-generation failure), the run leaves the failing stage's AgentState
in status `processing` — not `failed` — and appends no failure audit
entry: the audit log holds only the three `agent_completed` rows of the
earlier stages. -/
theorem c2_counterexample :
    ((runPipeline (submittedApp 120000 500 20000 "5+y" "full_time") (some "t")
        (some Stage.decisionExplainer)).agentStates.map
      (fun r => (r.agentName, r.agentStatus))) =
      [("document_parser", "completed"), ("credit_scorer", "completed"),
       ("risk_assessor", "completed"), ("decision_explainer", "processing")] ∧
    (runPipeline (submittedApp 120000 500 20000 "5+y" "full_time") (some "t")
        (some Stage.decisionExplainer)).auditLog.map (fun r => r.action) =
      ["agent_completed", "agent_completed", "agent_completed"] := by
  constructor <;> rfl

/-- C2 amended: whichever stage throws, the run terminates with the
application forced to status `rejected`, finalDecision `rejected` and
the fixed technical-failure explanation, and with no `decision_made`
audit entry; but the failing stage's AgentState is left in status
`processing` with no output (it is never marked `failed`) and no
failure audit entry is appended — every audit entry of the run is an
`agent_completed` row of an earlier stage. -/
theorem c2_amended (a : Application) (genText : Option String) (k : Stage) :
    (runPipeline a genText (some k)).app.status = "rejected" ∧
    (runPipeline a genText (some k)).app.finalDecision = some "rejected" ∧
    (runPipeline a genText (some k)).app.aiExplanation =
      some "Application processing failed due to technical error." ∧
    ((runPipeline a genText (some k)).agentStates.getLast?).map
        (fun r => (r.agentName, r.agentStatus, r.output)) =
      some (k.agentName, "processing", none) ∧
    (runPipeline a genText (some k)).auditLog.all
      (fun r => r.action == "agent_completed") = true ∧
    (runPipeline a genText (some k)).auditLog.all
      (fun r => r.action != "decision_made") = true := by
  cases k <;>
    simp [runPipeline, stageRun, failedUpdate, Stage.agentName, List.getLast?]

/-- C5: a run in which no stage fails creates exactly four AgentState
records, in the order document_parser, credit_scorer, risk_assessor,
decision_explainer, each completed and each with a non-null output. -/
theorem c5_completed_run (a : Application) (genText : Option String) :
    (runPipeline a genText none).agentStates.map
        (fun r => (r.agentName, r.agentStatus, r.output.isSome)) =
      [("document_parser", "completed", true),
       ("credit_scorer", "completed", true),
       ("risk_assessor", "completed", true),
       ("decision_explainer", "completed", true)] := rfl

/-- C6: an override whose reason is shorter than 10 characters or whose
new decision is outside {approved, rejected} is rejected with nothing
mutated; a validated override is applied: it sets the application's
status and finalDecision to the new decision, stamps overriddenBy,
overrideReason and overriddenAt, appends exactly one `override_applied`
audit entry recording the previous and the new decision, and leaves
every AgentState record untouched. -/
theorem c6_override (s : SysState) (officerId : String) (r : OverrideReq) :
    (r.overrideReason.length < 10 ∨
        (r.newDecision ≠ "approved" ∧ r.newDecision ≠ "rejected") →
      overrideRoute s officerId r = (s, false)) ∧
    (10 ≤ r.overrideReason.length →
      r.newDecision = "approved" ∨ r.newDecision = "rejected" →
      (overrideRoute s officerId r).2 = true ∧
      (overrideRoute s officerId r).1.app.status = r.newDecision ∧
      (overrideRoute s officerId r).1.app.finalDecision = some r.newDecision ∧
      (overrideRoute s officerId r).1.app.overriddenBy = some officerId ∧
      (overrideRoute s officerId r).1.app.overrideReason =
        some r.overrideReason ∧
      (overrideRoute s officerId r).1.app.overriddenAt = true ∧
      (overrideRoute s officerId r).1.agentStates = s.agentStates ∧
      (overrideRoute s officerId r).1.auditLog = s.auditLog ++
        [{ action := "override_applied", agentName := none,
           details := some (.overrideInfo s.app.finalDecision r.newDecision
             r.overrideReason) }]) := by
  constructor
  · intro h
    have hv : overrideValid r = false := by
      rcases h with h | ⟨h1, h2⟩ <;> simp [overrideValid, *]
    simp [overrideRoute, hv]
  · intro hlen hdec
    have hv : overrideValid r = true := (overrideValid_iff r).mpr ⟨hlen, hdec⟩
    simp [overrideRoute, hv]

/-- C7: the code's behaviour on the failing input — an application whose
status is `processing` and a well-formed override body.  The override
route, which checks only the body and the row's existence, applies the
override: it reports success and rewrites the status, so an override is
applied while the status has not left `processing`, where the claim
requires rejection with no state change. -/
theorem c7_code_behavior :
    (submittedApp 120000 500 20000 "5+y" "full_time").status =
      "processing" ∧
    (overrideRoute ⟨submittedApp 120000 500 20000 "5+y" "full_time", [], []⟩
        "demo-officer-1" ⟨"manual review needed", "approved"⟩).2 = true ∧
    (overrideRoute ⟨submittedApp 120000 500 20000 "5+y" "full_time", [], []⟩
        "demo-officer-1" ⟨"manual review needed", "approved"⟩).1.app.status =
      "approved" := by
  have h : 10 ≤ "manual review needed".length := by decide
  refine ⟨rfl, ?_, ?_⟩ <;> simp [overrideRoute, overrideValid, submittedApp, h]

/-- C8: in every application state reachable through submission,
pipeline completion, pipeline failure and override, finalDecision is
set exactly when the status is not `processing`. -/
theorem c8_final_decision_iff (a : Application) (h : ReachableApp a) :
    a.finalDecision ≠ none ↔ a.status ≠ "processing" := by
  induction h with
  | submitted income debt loan dur stat => simp [submittedApp]
  | pipelineRun a genText failAt _ ih =>
    cases failAt with
    | none =>
      rw [runPipeline_none_app]
      simpa using statusStr_ne_processing (assessedOf (mkExtracted a)).2
    | some k =>
      rw [runPipeline_fail_app]
      simp [failedUpdate]
  | overridden a ast log officerId r _ ih =>
    by_cases hv : overrideValid r = true
    · rcases ((overrideValid_iff r).mp hv).2 with hd | hd <;>
        simp [overrideRoute, hv, hd]
    · simpa [overrideRoute, hv] using ih

/-- C8 witness: the invariant instantiated at a freshly submitted
application, whose reachability is the submission step itself. -/
theorem c8_witness :
    (submittedApp 120000 500 20000 "5+y" "full_time").finalDecision ≠ none ↔
      (submittedApp 120000 500 20000 "5+y" "full_time").status ≠
        "processing" :=
  c8_final_decision_iff _
    (ReachableApp.submitted 120000 500 20000 "5+y" "full_time")

/-- C9 counterexample: for income 120000, monthly debt 3495.5, loan 0,
duration `5+y`, full time, both computations give score 850 and raw DTI
0.34955, but the simulation classifies the raw DTI (0.34955 < 0.35 →
low) while the pipeline's risk assessor classifies the 3-decimal
rounding 0.350 (not < 0.35 → medium): the riskTier differs. -/
theorem c9_counterexample :
    simCreditScore 120000 (6991 / 2) 0 "5+y" "full_time" =
      (creditScoringOutput ⟨120000, 6991 / 2, 0, "5+y", "full_time"⟩).creditScore ∧
    simRiskTier 120000 (6991 / 2) 0 "5+y" "full_time" = RiskTier.low ∧
    (assessedOf ⟨120000, 6991 / 2, 0, "5+y", "full_time"⟩).1 =
      RiskTier.medium := by
  have hd : durationBonus "5+y" = 80 := by simp [durationBonus]
  have hs : statusBonus "full_time" = 30 := by simp [statusBonus]
  have h1 : ("5+y" : String) ≠ "0-1y" := by decide
  have h2 : ("5+y" : String) ≠ "1-2y" := by decide
  have h3 : ("5+y" : String) ≠ "2-3y" := by decide
  have h4 : ("5+y" : String) ≠ "3-5y" := by decide
  refine ⟨rfl, ?_, ?_⟩
  · norm_num [simRiskTier, simCreditScore, simScoreRaw, simRawDti, jsDiv,
      JsNum.ltQ, JsNum.gtQ, jsRound, h1, h2, h3, h4]
  · norm_num [assessedOf, creditScoringOutput, creditScore, baseScore,
      incomeBonus, hd, hs, rawDti, totalMonthlyDebt, jsDiv, dtiAdjust,
      JsNum.ltQ, JsNum.gtQ, jsRound, jsToFixed3, roundTo3, riskAssess]

/-- C9 amended: for identical input tuples the simulation and the
pipeline produce the same creditScore (same 0.008 coefficient) and the
same 3-decimal-rounded dtiRatio; the riskTier also agrees whenever the
raw DTI and its 3-decimal rounding fall on the same side of both the
0.35 and the 0.5 threshold — but the simulation classifies the raw
quotient while the pipeline classifies the rounding, so the tiers can
differ on inputs whose raw DTI and rounding straddle a threshold. -/
theorem c9_amended (income debt loan : ℚ) (dur stat : String) :
    simCreditScore income debt loan dur stat =
      (creditScoringOutput ⟨income, debt, loan, dur, stat⟩).creditScore ∧
    simDtiResult income debt loan =
      (creditScoringOutput ⟨income, debt, loan, dur, stat⟩).dtiRatio ∧
    ((simRawDti income debt loan).ltQ (35 / 100) =
        (jsToFixed3 (simRawDti income debt loan)).ltQ (35 / 100) →
      (simRawDti income debt loan).gtQ (5 / 10) =
        (jsToFixed3 (simRawDti income debt loan)).gtQ (5 / 10) →
      simRiskTier income debt loan dur stat =
        (assessedOf ⟨income, debt, loan, dur, stat⟩).1) := by
  refine ⟨rfl, rfl, fun h1 h2 => ?_⟩
  simp only [simRiskTier, assessedOf, riskAssess, apply_ite Prod.fst]
  rw [h1, h2]
  rfl

/-- C10 counterexample: the inputs (income 120000, debt 3494, loan 0)
and (income 120000, debt 3496, loan 0) have raw DTI quotients 0.3494
and 0.3496 that agree in the first three decimal places (they differ
only beyond the third), yet the pipeline rounds them to 0.349 and 0.350
respectively and classifies them differently: low/approved versus
medium/escalated. -/
theorem c10_counterexample :
    rawDti ⟨120000, 3494, 0, "5+y", "full_time"⟩ =
      JsNum.fin (3494 / 10000) ∧
    rawDti ⟨120000, 3496, 0, "5+y", "full_time"⟩ =
      JsNum.fin (3496 / 10000) ∧
    ⌊(3494 / 10000 : ℚ) * 1000⌋ = ⌊(3496 / 10000 : ℚ) * 1000⌋ ∧
    assessedOf ⟨120000, 3494, 0, "5+y", "full_time"⟩ =
      (RiskTier.low, Decision.approved) ∧
    assessedOf ⟨120000, 3496, 0, "5+y", "full_time"⟩ =
      (RiskTier.medium, Decision.escalated) := by
  have hd : durationBonus "5+y" = 80 := by simp [durationBonus]
  have hs : statusBonus "full_time" = 30 := by simp [statusBonus]
  refine ⟨?_, ?_, ?_, ?_, ?_⟩ <;>
    norm_num [assessedOf, creditScoringOutput, creditScore, baseScore,
      incomeBonus, hd, hs, rawDti, totalMonthlyDebt, jsDiv, dtiAdjust,
      JsNum.ltQ, JsNum.gtQ, jsRound, jsToFixed3, roundTo3, riskAssess]

/-- C10 amended: the DTI the pipeline's risk assessor classifies on is
the credit scorer's raw DTI rounded to 3 decimal places
(`parseFloat(toFixed(3))`), not the raw quotient, and the thresholds
0.35 and 0.5 are compared against that rounded value: any two inputs
whose raw DTI quotients round to the same 3-decimal value (and produce
the same credit score) receive identical tier and decision. -/
theorem c10_amended (e e1 e2 : ExtractedData) :
    (creditScoringOutput e).dtiRatio = jsToFixed3 (rawDti e) ∧
    (jsToFixed3 (rawDti e1) = jsToFixed3 (rawDti e2) →
      (creditScoringOutput e1).creditScore =
        (creditScoringOutput e2).creditScore →
      assessedOf e1 = assessedOf e2) := by
  refine ⟨rfl, fun h1 h2 => ?_⟩
  show riskAssess (creditScoringOutput e1).creditScore
      (jsToFixed3 (rawDti e1)) =
    riskAssess (creditScoringOutput e2).creditScore (jsToFixed3 (rawDti e2))
  rw [h1, h2]

end SmartLoan
